import Mathlib

/-!
Shallow embedding of the scene/object/camera transform pipeline of
`tutorial-4` (`glapp.h` / `glapp.cpp`).

Modelling conventions:
* `GLfloat` arithmetic is embedded exactly over `ℚ`; `GLint` over `ℤ`;
  `GLushort` indices over `ℕ`.
* `glm::mat3` literals are written with `glmMat3`, which takes the nine
  scalars in glm's column-major constructor order, so every matrix
  literal below matches the C++ source token for token.
* `glm::cos (glm::radians a)` and `glm::sin (glm::radians a)` are
  abstracted as parameters `cosd sind : ℚ → ℚ` (cosine / sine of an
  angle given in degrees); no verified property depends on trig values.
* `std::map` registries are embedded as association lists with
  insert-or-replace (`insertA`) and first-match lookup (`lookupA`);
  the `std::map` iterators stored in `GLObject::mdl_ref` / `shd_ref`
  are embedded as the registry keys they point at.
* GPU-side state (VBO/VAO/EBO handles, shader compilation) is external
  to the pipeline; a compiled `GLSLShader` is represented by the pair
  of shader file names it was built from, and `GLModel.vaoid` is
  omitted.
-/

/-- 2D vector over `ℚ`, embedding `glm::vec2`. -/
structure Vec2 where
  x : ℚ
  y : ℚ
deriving DecidableEq, Repr

/-- 3-component color over `ℚ`, embedding `glm::vec3`. -/
structure Vec3 where
  r : ℚ
  g : ℚ
  b : ℚ
deriving DecidableEq, Repr

/-- Componentwise addition (`operator+` on `glm::vec2`). -/
def Vec2.add (a b : Vec2) : Vec2 := ⟨a.x + b.x, a.y + b.y⟩

/-- Scalar multiplication (`scalar * glm::vec2`). -/
def Vec2.smul (c : ℚ) (v : Vec2) : Vec2 := ⟨c * v.x, c * v.y⟩

/-- Negation (`-glm::vec2`). -/
def Vec2.neg (v : Vec2) : Vec2 := ⟨-v.x, -v.y⟩

/-- Dot product (`glm::dot`). -/
def Vec2.dot (a b : Vec2) : ℚ := a.x * b.x + a.y * b.y

/-- 3x3 matrix over `ℚ`, embedding `glm::mat3`; `mRC` is the entry in
row `R`, column `C`. -/
structure Mat3 where
  m00 : ℚ
  m01 : ℚ
  m02 : ℚ
  m10 : ℚ
  m11 : ℚ
  m12 : ℚ
  m20 : ℚ
  m21 : ℚ
  m22 : ℚ
deriving DecidableEq, Repr

/-- The glm 9-scalar `mat3` constructor: glm stores column-major, so the
first three scalars are column 0, the next three column 1, the last
three column 2. -/
def glmMat3 (a0 a1 a2 b0 b1 b2 c0 c1 c2 : ℚ) : Mat3 :=
  { m00 := a0, m10 := a1, m20 := a2,
    m01 := b0, m11 := b1, m21 := b2,
    m02 := c0, m12 := c1, m22 := c2 }

/-- Matrix product (`operator*` on `glm::mat3`), the usual row-by-column
product composing linear maps on column vectors. -/
def Mat3.mul (A B : Mat3) : Mat3 :=
  { m00 := A.m00 * B.m00 + A.m01 * B.m10 + A.m02 * B.m20,
    m01 := A.m00 * B.m01 + A.m01 * B.m11 + A.m02 * B.m21,
    m02 := A.m00 * B.m02 + A.m01 * B.m12 + A.m02 * B.m22,
    m10 := A.m10 * B.m00 + A.m11 * B.m10 + A.m12 * B.m20,
    m11 := A.m10 * B.m01 + A.m11 * B.m11 + A.m12 * B.m21,
    m12 := A.m10 * B.m02 + A.m11 * B.m12 + A.m12 * B.m22,
    m20 := A.m20 * B.m00 + A.m21 * B.m10 + A.m22 * B.m20,
    m21 := A.m20 * B.m01 + A.m21 * B.m11 + A.m22 * B.m21,
    m22 := A.m20 * B.m02 + A.m21 * B.m12 + A.m22 * B.m22 }

/-- `glm::mat3{0.f}`: the zero matrix (glm's one-scalar constructor puts
the scalar on the diagonal). -/
def Mat3.zero : Mat3 := glmMat3 0 0 0 0 0 0 0 0 0

/-- The identity matrix. -/
def Mat3.identity : Mat3 := glmMat3 1 0 0 0 1 0 0 0 1

/-- `scaleMat` of `GLObject::update` (glapp.cpp:463). -/
def scaleMat (s : Vec2) : Mat3 :=
  glmMat3 s.x 0 0 0 s.y 0 0 0 1

/-- `rotMat` of `GLObject::update` (glapp.cpp:478), with `c`, `s` the
cosine and sine of the (degree) orientation angle. -/
def rotMat (c s : ℚ) : Mat3 :=
  glmMat3 c s 0 (-s) c 0 0 0 1

/-- `transMat` of `GLObject::update` (glapp.cpp:484). -/
def transMat (p : Vec2) : Mat3 :=
  glmMat3 1 0 0 0 1 0 p.x p.y 1

/-- `GLApp::GLObject` (glapp.h:53-84).  `orientation.x` is the current
angle in degrees, `orientation.y` the angular speed in degrees per
second.  `mdl_ref` / `shd_ref` embed the `std::map` iterators as the
keys they point at; the C++ default-constructed (singular) iterator is
embedded as `""`.  Field initializers mirror the `{0.f}` member
initializers in the header. -/
structure GLObject where
  orientation : Vec2 := ⟨0, 0⟩
  scaling : Vec2 := ⟨0, 0⟩
  position : Vec2 := ⟨0, 0⟩
  color : Vec3 := ⟨0, 0, 0⟩
  mdl_to_ndc_xform : Mat3 := Mat3.zero
  mdl_xform : Mat3 := Mat3.zero
  mdl_to_map_xform : Mat3 := Mat3.zero
  mdl_ref : String := ""
  shd_ref : String := ""
deriving DecidableEq, Repr

/-- `GLApp::GLObject::update` (glapp.cpp:460-498).

`is_camera` embeds the pointer test `&objects["Camera"] == this`: it is
`true` exactly when the receiver is the entity registered under the
name `"Camera"`.  `world_to_ndc` and `world_map_to_ndc` are the values
of `camera2d.world_to_ndc_xform` and `camera2d.world_map_to_ndc_xform`
read by the function.  `cosd`/`sind` abstract
`glm::cos/sin ∘ glm::radians`. -/
def GLObject.update (cosd sind : ℚ → ℚ) (is_camera : Bool)
    (world_to_ndc world_map_to_ndc : Mat3) (delta_time : ℚ)
    (o : GLObject) : GLObject :=
  let scaleM := scaleMat o.scaling
  let orient :=
    if is_camera then o.orientation
    else Vec2.mk (o.orientation.x + o.orientation.y * delta_time) o.orientation.y
  let rotM := rotMat (cosd orient.x) (sind orient.x)
  let transM := transMat o.position
  let mdl := transM.mul (rotM.mul scaleM)
  { o with orientation := orient,
           mdl_xform := mdl,
           mdl_to_ndc_xform := world_to_ndc.mul mdl,
           mdl_to_map_xform := world_map_to_ndc.mul mdl }

/-- The keyboard state sampled by `Camera2D::update`
(glapp.cpp:669-673): `GLHelper::keystateV/Z/H/K/U`. -/
structure Inputs where
  keystateV : Bool
  keystateZ : Bool
  keystateH : Bool
  keystateK : Bool
  keystateU : Bool
deriving DecidableEq, Repr

/-- The zoom step of `Camera2D::update` (glapp.cpp:737-738) on the pair
(height, height_chg_dir): the direction is recomputed by the ternary
chain, then the height moves by `chg` in that direction. -/
def zoomStep (minH maxH chg : ℤ) (p : ℤ × ℤ) : ℤ × ℤ :=
  let dir := if p.1 ≤ minH then 1 else if p.1 ≥ maxH then -1 else p.2
  (p.1 + chg * dir, dir)

/-- Iterated zoom steps under the header's default constants
(`height 1000`, `height_chg_dir 1`, `min_height 500`, `max_height 2000`,
`height_chg_val 5`, glapp.h:92-110), starting from the initial state. -/
def zoomIter : ℕ → ℤ × ℤ
  | 0 => (1000, 1)
  | n + 1 => zoomStep 500 2000 5 (zoomIter n)

/-- `GLApp::Camera2D` (glapp.h:86-124).  `pgo` is not stored here: the
bound entity is passed to and returned from `Camera2D.update`
explicitly.  The unused member `cam_follow` is omitted.  Field
initializers mirror the header's member initializers. -/
structure Camera2D where
  right : Vec2
  up : Vec2
  view_xform : Mat3
  camwin_to_ndc_xform : Mat3
  world_to_ndc_xform : Mat3
  height : ℤ := 1000
  ar : ℚ
  cam_pos : Vec2
  interpolation : ℚ
  map_to_ndc_xform : Mat3
  world_map_to_ndc_xform : Mat3
  min_height : ℤ := 500
  max_height : ℤ := 2000
  height_chg_dir : ℤ := 1
  height_chg_val : ℤ := 5
  linear_speed : ℚ := 2
  camtype_flag : Bool := false
  zoom_flag : Bool := false
  left_turn_flag : Bool := false
  right_turn_flag : Bool := false
  move_flag : Bool := false
deriving DecidableEq, Repr

/-- `GLApp::Camera2D::update` (glapp.cpp:666-753), acting on the camera
state and the bound entity `pgo` (the object registered under
`"Camera"`).  `fbw`/`fbh` are the framebuffer sizes returned by
`glfwGetFramebufferSize`, `dt` is `GLHelper::delta_time`.

Statement order mirrors the source: sample flags; recompute the aspect
ratio; optional left/right turn of `pgo` with wrap to 0 at `>= 360` /
`<= -360`; recompute `right`/`up` if a turn flag is set; optional move
of `pgo` along `up`; first-order interpolation of `cam_pos` toward
`pgo`'s position with factor `dt`; view matrix by camera type; zoom
ping-pong; `pgo->update(dt)` (which reads the *old*
`world_to_ndc_xform` and `world_map_to_ndc_xform`, recomputed only
after that call — and `world_map_to_ndc_xform` not at all); finally the
window-to-NDC and world-to-NDC matrices.  The scalar factors of
`linear_speed * up * dt * 150.f` are combined into one `Vec2.smul`. -/
def Camera2D.update (cosd sind : ℚ → ℚ) (inp : Inputs)
    (fbw fbh : ℚ) (dt : ℚ) (cam : Camera2D) (pgo : GLObject) :
    Camera2D × GLObject :=
  let camtype_flag := inp.keystateV
  let zoom_flag := inp.keystateZ
  let left_turn_flag := inp.keystateH
  let right_turn_flag := inp.keystateK
  let move_flag := inp.keystateU
  let ar := fbw / fbh
  let pgo1 :=
    if left_turn_flag then
      let a := pgo.orientation.x + pgo.orientation.y * dt * 150
      { pgo with orientation := Vec2.mk (if a ≥ 360 then 0 else a) pgo.orientation.y }
    else pgo
  let pgo2 :=
    if right_turn_flag then
      let a := pgo1.orientation.x - pgo1.orientation.y * dt * 150
      { pgo1 with orientation := Vec2.mk (if a ≤ -360 then 0 else a) pgo1.orientation.y }
    else pgo1
  let rgt :=
    if left_turn_flag || right_turn_flag then
      Vec2.mk (cosd pgo2.orientation.x) (sind pgo2.orientation.x)
    else cam.right
  let upv :=
    if left_turn_flag || right_turn_flag then
      Vec2.mk (-(sind pgo2.orientation.x)) (cosd pgo2.orientation.x)
    else cam.up
  let pgo3 :=
    if move_flag then
      { pgo2 with position := pgo2.position.add (Vec2.smul (cam.linear_speed * dt * 150) upv) }
    else pgo2
  let interpolation := dt
  let cam_pos := (Vec2.smul (1 - interpolation) cam.cam_pos).add
      (Vec2.smul interpolation pgo3.position)
  let view_xform :=
    if camtype_flag then
      glmMat3 rgt.x upv.x 0 rgt.y upv.y 0
        (Vec2.dot rgt.neg pgo3.position) (Vec2.dot upv.neg pgo3.position) 1
    else
      glmMat3 1 0 0 0 1 0 (-cam_pos.x) (-cam_pos.y) 1
  let hd :=
    if zoom_flag then
      zoomStep cam.min_height cam.max_height cam.height_chg_val
        (cam.height, cam.height_chg_dir)
    else (cam.height, cam.height_chg_dir)
  let pgo4 := GLObject.update cosd sind true
      cam.world_to_ndc_xform cam.world_map_to_ndc_xform dt pgo3
  let camwin_to_ndc_xform :=
    glmMat3 (2 / (ar * (hd.1 : ℚ))) 0 0 0 (2 / (hd.1 : ℚ)) 0 0 0 1
  let world_to_ndc_xform := camwin_to_ndc_xform.mul view_xform
  ({ cam with ar := ar, right := rgt, up := upv,
              interpolation := interpolation, cam_pos := cam_pos,
              view_xform := view_xform,
              height := hd.1, height_chg_dir := hd.2,
              camwin_to_ndc_xform := camwin_to_ndc_xform,
              world_to_ndc_xform := world_to_ndc_xform,
              camtype_flag := camtype_flag, zoom_flag := zoom_flag,
              left_turn_flag := left_turn_flag,
              right_turn_flag := right_turn_flag,
              move_flag := move_flag },
   pgo4)

/-- OpenGL primitive topologies relevant to `init_models_cont`:
`GLApp::GLModel model{}` zero-initializes `primitive_type` to `0`,
which is `GL_POINTS`; the `t` / `f` directives set `GL_TRIANGLES` /
`GL_TRIANGLE_FAN`. -/
inductive Prim where
  | points
  | triangles
  | fan
deriving DecidableEq, Repr

/-- One line of a mesh (`.msh`) file, already split at the leading
directive character; the constructors carry the remaining whitespace-
separated numeric tokens of the line (the C++ code extracts from the
line with `operator>>` and decides by itself how many to read).  Lines
with any other leading character fall into the `switch` default and do
nothing (`other`). -/
inductive MeshLine where
  | v (toks : List ℚ)
  | t (toks : List ℕ)
  | f (toks : List ℕ)
  | n (name : String)
  | other
deriving DecidableEq, Repr

/-- One `operator>>` extraction of an index from the remaining tokens of
a line; extraction past the end fails and (per C++11) writes `0`. -/
def readIdx : List ℕ → ℕ × List ℕ
  | [] => (0, [])
  | i :: rest => (i, rest)

/-- One `operator>>` extraction of a float from the remaining tokens. -/
def readCoord : List ℚ → ℚ × List ℚ
  | [] => (0, [])
  | q :: rest => (q, rest)

/-- The mutable state of the parse loop in `init_models_cont`
(glapp.cpp:353-357): `model_name`, the model's `primitive_type`, and
the `pos_vtx` / `idx_vtx` arrays. -/
structure MeshState where
  model_name : String
  prim : Prim
  pos_vtx : List Vec2
  idx_vtx : List ℕ
deriving DecidableEq, Repr

/-- One iteration of the `while (std::getline ...)` loop of
`init_models_cont` (glapp.cpp:360-408): `v` appends a vertex, `t` sets
triangle-list topology and appends three indices, `f` sets fan
topology and appends three indices when `idx_vtx` is still empty and
one index otherwise, `n` sets the model name. -/
def stepMeshLine (st : MeshState) : MeshLine → MeshState
  | .v toks =>
    let xr := readCoord toks
    let yr := readCoord xr.2
    { st with pos_vtx := st.pos_vtx ++ [⟨xr.1, yr.1⟩] }
  | .t toks =>
    let r1 := readIdx toks
    let r2 := readIdx r1.2
    let r3 := readIdx r2.2
    { st with prim := .triangles, idx_vtx := st.idx_vtx ++ [r1.1, r2.1, r3.1] }
  | .f toks =>
    if st.idx_vtx.isEmpty then
      let r1 := readIdx toks
      let r2 := readIdx r1.2
      let r3 := readIdx r2.2
      { st with prim := .fan, idx_vtx := st.idx_vtx ++ [r1.1, r2.1, r3.1] }
    else
      let r := readIdx toks
      { st with prim := .fan, idx_vtx := st.idx_vtx ++ [r.1] }
  | .n nm => { st with model_name := nm }
  | .other => st

/-- `GLApp::GLModel` (glapp.h:44-49), minus the GPU handle `vaoid`. -/
structure GLModel where
  primitive_type : Prim
  primitive_cnt : ℕ
  draw_cnt : ℕ
deriving DecidableEq, Repr

/-- `GLApp::init_models_cont` (glapp.cpp:340-438) on the lines of one
mesh file: folds the parse loop from the zero-initialized state, then
builds the `GLModel` (`draw_cnt = idx_vtx.size()`,
`primitive_cnt = draw_cnt / 3`).  Returns the model together with the
name parsed from the file's `n` line, under which the function inserts
it into the `models` registry. -/
def init_models_cont (lines : List MeshLine) : GLModel × String :=
  let st := lines.foldl stepMeshLine ⟨"", .points, [], []⟩
  ({ primitive_type := st.prim,
     primitive_cnt := st.idx_vtx.length / 3,
     draw_cnt := st.idx_vtx.length }, st.model_name)

/-- A compiled shader program (`GLSLShader`), represented by the vertex
and fragment shader file names it was compiled from; compilation itself
is external. -/
structure GLSLShader where
  vtx_shdr : String
  frg_shdr : String
deriving DecidableEq, Repr

/-- One well-formed 7-line entity record of a scene file, as read by the
body of the `while (obj_cnt--)` loop of `init_scene`
(glapp.cpp:263-319). -/
structure SceneRecord where
  model_name : String
  object_name : String
  shdr_pgm_name : String
  vtx_shdr_filename : String
  frg_shdr_filename : String
  color : Vec3
  scaling : Vec2
  orientation : Vec2
  position : Vec2
deriving DecidableEq, Repr

/-- The `GLObject obj{}` built from one record: the pose/appearance
fields come from the record, the derived matrices keep their
zero-initialized values, and the model/shader references are set to the
record's names (`models.find(model_name)` / `shdrpgms.find(...)`). -/
def objOfRecord (r : SceneRecord) : GLObject :=
  { orientation := r.orientation,
    scaling := r.scaling,
    position := r.position,
    color := r.color,
    mdl_ref := r.model_name,
    shd_ref := r.shdr_pgm_name }

/-- First-match lookup in an association list (embeds `std::map::find` /
`std::map::at`). -/
def lookupA {α : Type} (k : String) : List (String × α) → Option α
  | [] => none
  | (k1, v) :: t => if k1 = k then some v else lookupA k t

/-- Key membership (embeds `std::map::contains`). -/
def containsA {α : Type} (k : String) (l : List (String × α)) : Bool :=
  (lookupA k l).isSome

/-- Insert-or-replace at a key (embeds `std::map::operator[] = v`). -/
def insertA {α : Type} (k : String) (v : α) : List (String × α) → List (String × α)
  | [] => [(k, v)]
  | (k1, v1) :: t => if k1 = k then (k, v) :: t else (k1, v1) :: insertA k v t

/-- The three singleton registries of `GLApp` (glapp.cpp:34-36)
together with two instrumentation logs recording, in order, the names
for which `init_scene` invoked `init_models_cont` (mesh file loads) and
`init_shdrpgms` (shader compilations). -/
structure SceneState where
  models : List (String × GLModel)
  shdrpgms : List (String × GLSLShader)
  objects : List (String × GLObject)
  modelLoads : List String
  shaderLoads : List String
deriving DecidableEq, Repr

/-- The registries before `init_scene` runs: all empty. -/
def initSceneState : SceneState := ⟨[], [], [], [], []⟩

/-- One iteration of the `while (obj_cnt--)` loop of `init_scene`
(glapp.cpp:263-319), parameterized by the mesh environment
`env : model name ↦ lines of "../meshes/" ++ name ++ ".msh"`:
if the record's model name is not yet a key of `models`, load the mesh
file and insert the parsed model under the name parsed *from the mesh
file*; if the shader-program name is not yet a key of `shdrpgms`,
compile and insert it; then build the object and insert it under its
instance name (silently replacing any previous entry). -/
def processRecord (env : String → List MeshLine) (st : SceneState)
    (r : SceneRecord) : SceneState :=
  let st1 :=
    if containsA r.model_name st.models then st
    else
      { st with
        models := insertA (init_models_cont (env r.model_name)).2
                    (init_models_cont (env r.model_name)).1 st.models,
        modelLoads := st.modelLoads ++ [r.model_name] }
  let st2 :=
    if containsA r.shdr_pgm_name st1.shdrpgms then st1
    else
      { st1 with
        shdrpgms := insertA r.shdr_pgm_name
                      ⟨r.vtx_shdr_filename, r.frg_shdr_filename⟩ st1.shdrpgms,
        shaderLoads := st1.shaderLoads ++ [r.shdr_pgm_name] }
  { st2 with objects := insertA r.object_name (objOfRecord r) st2.objects }

/-- `GLApp::init_scene` (glapp.cpp:245-320) on a scene file whose first
line is `N` followed by `N` well-formed records: the loop body folded
over the records in file order, starting from the empty registries. -/
def init_scene (env : String → List MeshLine) (records : List SceneRecord) :
    SceneState :=
  records.foldl (processRecord env) initSceneState

/-- A concrete mesh environment in which every mesh file registers the
model under its own file-stem name: used for concrete instances. -/
def envA : String → List MeshLine := fun nm =>
  [MeshLine.n nm, MeshLine.v [0, 0], MeshLine.v [1, 0], MeshLine.v [0, 1],
   MeshLine.t [0, 1, 2]]

/-- A concrete scene record. -/
def recA : SceneRecord :=
  { model_name := "square", object_name := "Obj1", shdr_pgm_name := "shd",
    vtx_shdr_filename := "my.vert", frg_shdr_filename := "my.frag",
    color := ⟨1, 0, 0⟩, scaling := ⟨1, 1⟩, orientation := ⟨0, 30⟩,
    position := ⟨0, 0⟩ }

/-- A second record carrying the *same* instance name `"Obj1"` as
`recA` but different appearance state. -/
def recB : SceneRecord :=
  { recA with color := ⟨0, 1, 0⟩, position := ⟨5, 5⟩ }

/-- Witness objects for C1's purity clause: identical pose tuple,
different colors. -/
def oW1 : GLObject :=
  { orientation := ⟨5, 7⟩, scaling := ⟨2, 3⟩, position := ⟨1, 2⟩, color := ⟨1, 0, 0⟩ }

/-- Second witness object, agreeing with `oW1` on the purity tuple. -/
def oW2 : GLObject :=
  { orientation := ⟨5, 7⟩, scaling := ⟨2, 3⟩, position := ⟨1, 2⟩, color := ⟨0, 1, 0⟩ }

/-- A concrete camera state (all matrices the identity, default zoom
constants from the header). -/
def camW : Camera2D :=
  { right := ⟨1, 0⟩, up := ⟨0, 1⟩, view_xform := Mat3.identity,
    camwin_to_ndc_xform := Mat3.identity, world_to_ndc_xform := Mat3.identity,
    ar := 1, cam_pos := ⟨0, 0⟩, interpolation := 0,
    map_to_ndc_xform := Mat3.identity, world_map_to_ndc_xform := Mat3.identity }

/-- A concrete input state with every sampled key held down. -/
def inpW : Inputs := ⟨true, true, true, true, true⟩

/-- A record with a fresh instance name `"Obj2"` that references the
same model and shader names as `recA`. -/
def recC : SceneRecord := { recA with object_name := "Obj2" }

/-- Matrix multiplication on `Mat3` is associative. -/
theorem Mat3.mul_assoc (A B C : Mat3) :
    (A.mul B).mul C = A.mul (B.mul C) := by
  cases A; cases B; cases C
  simp only [Mat3.mul, Mat3.mk.injEq]
  refine ⟨by ring, by ring, by ring, by ring, by ring, by ring, by ring, by ring, by ring⟩

/-- `GLObject.update` leaves the position untouched. -/
theorem GLObject.update_position_eq (cosd sind : ℚ → ℚ) (ic : Bool)
    (w wm : Mat3) (dt : ℚ) (o : GLObject) :
    (GLObject.update cosd sind ic w wm dt o).position = o.position := by
  simp [GLObject.update]

/-- `GLObject.update` leaves the scaling untouched. -/
theorem GLObject.update_scaling_eq (cosd sind : ℚ → ℚ) (ic : Bool)
    (w wm : Mat3) (dt : ℚ) (o : GLObject) :
    (GLObject.update cosd sind ic w wm dt o).scaling = o.scaling := by
  simp [GLObject.update]

/-- `GLObject.update` leaves the color untouched. -/
theorem GLObject.update_color_eq (cosd sind : ℚ → ℚ) (ic : Bool)
    (w wm : Mat3) (dt : ℚ) (o : GLObject) :
    (GLObject.update cosd sind ic w wm dt o).color = o.color := by
  simp [GLObject.update]

/-- `GLObject.update` leaves the registry references untouched. -/
theorem GLObject.update_refs_eq (cosd sind : ℚ → ℚ) (ic : Bool)
    (w wm : Mat3) (dt : ℚ) (o : GLObject) :
    (GLObject.update cosd sind ic w wm dt o).mdl_ref = o.mdl_ref
    ∧ (GLObject.update cosd sind ic w wm dt o).shd_ref = o.shd_ref := by
  constructor <;> simp [GLObject.update]

/-- The orientation written by `GLObject.update`: unchanged for the
camera object, advanced by `angular_speed * delta_time` otherwise. -/
theorem GLObject.update_orientation_eq (cosd sind : ℚ → ℚ) (ic : Bool)
    (w wm : Mat3) (dt : ℚ) (o : GLObject) :
    (GLObject.update cosd sind ic w wm dt o).orientation
      = if ic then o.orientation
        else Vec2.mk (o.orientation.x + o.orientation.y * dt) o.orientation.y := by
  simp [GLObject.update]

/-- The model-to-world matrix written by `GLObject.update`, as the
product written in the source: `transMat * (rotMat * scaleMat)`. -/
theorem GLObject.update_mdl_xform_eq (cosd sind : ℚ → ℚ) (ic : Bool)
    (w wm : Mat3) (dt : ℚ) (o : GLObject) :
    (GLObject.update cosd sind ic w wm dt o).mdl_xform
      = (transMat o.position).mul
          ((rotMat (cosd (GLObject.update cosd sind ic w wm dt o).orientation.x)
                   (sind (GLObject.update cosd sind ic w wm dt o).orientation.x)).mul
            (scaleMat o.scaling)) := by
  simp [GLObject.update]

/-- The two projection matrices written by `GLObject.update` are the
camera matrices times the freshly computed model-to-world matrix. -/
theorem GLObject.update_proj_eq (cosd sind : ℚ → ℚ) (ic : Bool)
    (w wm : Mat3) (dt : ℚ) (o : GLObject) :
    (GLObject.update cosd sind ic w wm dt o).mdl_to_ndc_xform
      = w.mul ((GLObject.update cosd sind ic w wm dt o).mdl_xform)
    ∧ (GLObject.update cosd sind ic w wm dt o).mdl_to_map_xform
      = wm.mul ((GLObject.update cosd sind ic w wm dt o).mdl_xform) := by
  constructor <;> simp [GLObject.update]

/-- C1 counterexample: the claim's purity tuple (position, orientation
angle, scale, camera matrices) is too small.  Two objects agreeing on
that whole tuple but with angular speeds `0` and `90` deg/s produce
different matrices from `GLObject::update` (with `delta_time = 1`,
identity camera matrices, and the concrete trig tables
`cosd = sind = id`), because the angle is advanced by
`angular_speed * delta_time` before the rotation matrix is built. -/
theorem C1_purity_counterexample :
    ({ orientation := ⟨0, 0⟩, scaling := ⟨1, 1⟩, position := ⟨0, 0⟩ } : GLObject).position
      = ({ orientation := ⟨0, 90⟩, scaling := ⟨1, 1⟩, position := ⟨0, 0⟩ } : GLObject).position
    ∧ ({ orientation := ⟨0, 0⟩, scaling := ⟨1, 1⟩, position := ⟨0, 0⟩ } : GLObject).orientation.x
      = ({ orientation := ⟨0, 90⟩, scaling := ⟨1, 1⟩, position := ⟨0, 0⟩ } : GLObject).orientation.x
    ∧ ({ orientation := ⟨0, 0⟩, scaling := ⟨1, 1⟩, position := ⟨0, 0⟩ } : GLObject).scaling
      = ({ orientation := ⟨0, 90⟩, scaling := ⟨1, 1⟩, position := ⟨0, 0⟩ } : GLObject).scaling
    ∧ ¬ ((GLObject.update (fun q => q) (fun q => q) false Mat3.identity Mat3.identity 1
            { orientation := ⟨0, 0⟩, scaling := ⟨1, 1⟩, position := ⟨0, 0⟩ }).mdl_to_ndc_xform
        = (GLObject.update (fun q => q) (fun q => q) false Mat3.identity Mat3.identity 1
            { orientation := ⟨0, 90⟩, scaling := ⟨1, 1⟩, position := ⟨0, 0⟩ }).mdl_to_ndc_xform) := by
  refine ⟨rfl, rfl, rfl, ?_⟩
  simp [GLObject.update, rotMat, transMat, scaleMat, glmMat3, Mat3.mul,
    Mat3.identity, Mat3.mk.injEq]

/-- C1 (amended): `GLObject::update` recomputes the model-to-world
matrix as `T(position) * R(orientation) * S(scale)` (written
`T * (R * S)` in the source, with translation applied last — the two
bracketings agree), then sets `mdl_to_ndc_xform = world_to_ndc * mdl_xform`
and `mdl_to_map_xform = world_map_to_ndc * mdl_xform`; and for any two
calls with identical position, orientation (angle *and* angular speed),
scale, delta_time and camera matrices, the resulting three matrices are
identical — a pure function of that (enlarged) tuple. -/
theorem C1_update_matrix_pipeline :
    ∀ (cosd sind : ℚ → ℚ) (ic : Bool) (w wm : Mat3) (dt : ℚ) (o : GLObject),
    ((GLObject.update cosd sind ic w wm dt o).mdl_xform
      = (transMat o.position).mul
          ((rotMat (cosd (GLObject.update cosd sind ic w wm dt o).orientation.x)
                   (sind (GLObject.update cosd sind ic w wm dt o).orientation.x)).mul
            (scaleMat o.scaling)))
    ∧ ((GLObject.update cosd sind ic w wm dt o).mdl_xform
      = ((transMat o.position).mul
          (rotMat (cosd (GLObject.update cosd sind ic w wm dt o).orientation.x)
                  (sind (GLObject.update cosd sind ic w wm dt o).orientation.x))).mul
          (scaleMat o.scaling))
    ∧ ((GLObject.update cosd sind ic w wm dt o).mdl_to_ndc_xform
      = w.mul ((GLObject.update cosd sind ic w wm dt o).mdl_xform))
    ∧ ((GLObject.update cosd sind ic w wm dt o).mdl_to_map_xform
      = wm.mul ((GLObject.update cosd sind ic w wm dt o).mdl_xform))
    ∧ (∀ o2 : GLObject, o.position = o2.position → o.orientation = o2.orientation →
        o.scaling = o2.scaling →
        ((GLObject.update cosd sind ic w wm dt o).mdl_xform
            = (GLObject.update cosd sind ic w wm dt o2).mdl_xform
         ∧ (GLObject.update cosd sind ic w wm dt o).mdl_to_ndc_xform
            = (GLObject.update cosd sind ic w wm dt o2).mdl_to_ndc_xform
         ∧ (GLObject.update cosd sind ic w wm dt o).mdl_to_map_xform
            = (GLObject.update cosd sind ic w wm dt o2).mdl_to_map_xform)) := by
  intro cosd sind ic w wm dt o
  refine ⟨GLObject.update_mdl_xform_eq cosd sind ic w wm dt o,
          ?_,
          (GLObject.update_proj_eq cosd sind ic w wm dt o).1,
          (GLObject.update_proj_eq cosd sind ic w wm dt o).2,
          ?_⟩
  · rw [GLObject.update_mdl_xform_eq cosd sind ic w wm dt o, Mat3.mul_assoc]
  · intro o2 h1 h2 h3
    refine ⟨?_, ?_, ?_⟩ <;> simp [GLObject.update, h1, h2, h3]

/-- C1 witness: the purity clause applied at the concrete objects `oW1`
and `oW2`. -/
theorem C1_update_matrix_pipeline_witness :
    oW1.position = oW2.position ∧ oW1.orientation = oW2.orientation
    ∧ oW1.scaling = oW2.scaling
    ∧ ((GLObject.update (fun q => q) (fun q => q) false Mat3.identity Mat3.identity 1 oW1).mdl_xform
        = (GLObject.update (fun q => q) (fun q => q) false Mat3.identity Mat3.identity 1 oW2).mdl_xform
       ∧ (GLObject.update (fun q => q) (fun q => q) false Mat3.identity Mat3.identity 1 oW1).mdl_to_ndc_xform
        = (GLObject.update (fun q => q) (fun q => q) false Mat3.identity Mat3.identity 1 oW2).mdl_to_ndc_xform
       ∧ (GLObject.update (fun q => q) (fun q => q) false Mat3.identity Mat3.identity 1 oW1).mdl_to_map_xform
        = (GLObject.update (fun q => q) (fun q => q) false Mat3.identity Mat3.identity 1 oW2).mdl_to_map_xform) :=
  ⟨rfl, rfl, rfl,
   (C1_update_matrix_pipeline (fun q => q) (fun q => q) false Mat3.identity
      Mat3.identity 1 oW1).2.2.2.2 oW2 rfl rfl rfl⟩

/-- C2: for every non-camera entity, `GLObject::update` advances the
orientation angle by exactly `angular_speed * delta_time` (and keeps
the angular speed); with `angular_speed = 30` deg/s and
`delta_time = 1/2` s, two consecutive ticks advance the angle by
exactly 30 degrees total. -/
theorem C2_orientation_advance :
    ∀ (cosd sind : ℚ → ℚ) (w wm : Mat3) (dt : ℚ) (o : GLObject),
    ((GLObject.update cosd sind false w wm dt o).orientation.x
      = o.orientation.x + o.orientation.y * dt)
    ∧ ((GLObject.update cosd sind false w wm dt o).orientation.y = o.orientation.y)
    ∧ (o.orientation.y = 30 →
        (GLObject.update cosd sind false w wm (1/2)
          (GLObject.update cosd sind false w wm (1/2) o)).orientation.x
        = o.orientation.x + 30) := by
  intro cosd sind w wm dt o
  refine ⟨by simp [GLObject.update], by simp [GLObject.update], ?_⟩
  intro h
  simp [GLObject.update, h]
  ring

/-- C2 witness: the two-tick clause at a concrete entity with
`angular_speed = 30` and starting angle 10. -/
theorem C2_orientation_advance_witness :
    (({ orientation := ⟨10, 30⟩ } : GLObject).orientation.y = 30)
    ∧ (GLObject.update (fun q => q) (fun q => q) false Mat3.identity Mat3.identity (1/2)
        (GLObject.update (fun q => q) (fun q => q) false Mat3.identity Mat3.identity (1/2)
          ({ orientation := ⟨10, 30⟩ } : GLObject))).orientation.x
      = ({ orientation := ⟨10, 30⟩ } : GLObject).orientation.x + 30 :=
  ⟨rfl,
   (C2_orientation_advance (fun q => q) (fun q => q) Mat3.identity Mat3.identity 0
      { orientation := ⟨10, 30⟩ }).2.2 rfl⟩

/-- C10: a call to `GLObject::update` writes only the orientation and
the three derived matrices: position, scaling, color, `mdl_ref` and
`shd_ref` are returned unchanged; when the receiver is the entity
registered under `"Camera"` (`is_camera = true`, embedding the pointer
test `&objects["Camera"] == this`) the orientation is also left
unchanged while all three matrices are still recomputed from the
current state. -/
theorem C10_update_frame_effect :
    ∀ (cosd sind : ℚ → ℚ) (ic : Bool) (w wm : Mat3) (dt : ℚ) (o : GLObject),
    ((GLObject.update cosd sind ic w wm dt o).position = o.position)
    ∧ ((GLObject.update cosd sind ic w wm dt o).scaling = o.scaling)
    ∧ ((GLObject.update cosd sind ic w wm dt o).color = o.color)
    ∧ ((GLObject.update cosd sind ic w wm dt o).mdl_ref = o.mdl_ref)
    ∧ ((GLObject.update cosd sind ic w wm dt o).shd_ref = o.shd_ref)
    ∧ ((GLObject.update cosd sind true w wm dt o).orientation = o.orientation)
    ∧ ((GLObject.update cosd sind true w wm dt o).mdl_xform
        = (transMat o.position).mul
            ((rotMat (cosd o.orientation.x) (sind o.orientation.x)).mul
              (scaleMat o.scaling)))
    ∧ ((GLObject.update cosd sind ic w wm dt o).mdl_to_ndc_xform
        = w.mul ((GLObject.update cosd sind ic w wm dt o).mdl_xform))
    ∧ ((GLObject.update cosd sind ic w wm dt o).mdl_to_map_xform
        = wm.mul ((GLObject.update cosd sind ic w wm dt o).mdl_xform)) := by
  intro cosd sind ic w wm dt o
  exact ⟨GLObject.update_position_eq cosd sind ic w wm dt o,
         GLObject.update_scaling_eq cosd sind ic w wm dt o,
         GLObject.update_color_eq cosd sind ic w wm dt o,
         (GLObject.update_refs_eq cosd sind ic w wm dt o).1,
         (GLObject.update_refs_eq cosd sind ic w wm dt o).2,
         by simp [GLObject.update],
         by simp [GLObject.update],
         (GLObject.update_proj_eq cosd sind ic w wm dt o).1,
         (GLObject.update_proj_eq cosd sind ic w wm dt o).2⟩

/-- C6: in mesh-file parsing, every `t` line sets triangle-list
topology and appends exactly three indices; every `f` line sets fan
topology and appends three indices when no index data has been seen
yet, otherwise exactly one. -/
theorem C6_mesh_directives :
    ∀ (st : MeshState) (toks : List ℕ) (a b c i : ℕ) (rest : List ℕ),
    ((stepMeshLine st (.t toks)).prim = .triangles)
    ∧ ((stepMeshLine st (.t toks)).idx_vtx.length = st.idx_vtx.length + 3)
    ∧ ((stepMeshLine st (.t (a :: b :: c :: rest))).idx_vtx = st.idx_vtx ++ [a, b, c])
    ∧ ((stepMeshLine st (.f toks)).prim = .fan)
    ∧ (st.idx_vtx = [] →
        (stepMeshLine st (.f (a :: b :: c :: rest))).idx_vtx = [a, b, c])
    ∧ (st.idx_vtx ≠ [] →
        (stepMeshLine st (.f (i :: rest))).idx_vtx = st.idx_vtx ++ [i]) := by
  intro st toks a b c i rest
  refine ⟨rfl, ?_, rfl, ?_, ?_, ?_⟩
  · simp [stepMeshLine]
  · simp only [stepMeshLine]
    split <;> rfl
  · intro h
    simp [stepMeshLine, h, readIdx]
  · intro h
    have hne : st.idx_vtx.isEmpty = false := by
      cases hv : st.idx_vtx with
      | nil => exact absurd hv h
      | cons x xs => rfl
    simp [stepMeshLine, hne, readIdx]

/-- C6 witness: the fan clauses applied at concrete states — an empty
index array seeded with three indices, and a non-empty one extended by
one. -/
theorem C6_mesh_directives_witness :
    ((⟨"", .points, [], []⟩ : MeshState).idx_vtx = []
      ∧ (stepMeshLine ⟨"", .points, [], []⟩ (.f [3, 4, 5])).idx_vtx = [3, 4, 5])
    ∧ ((⟨"", .points, [], [1]⟩ : MeshState).idx_vtx ≠ []
      ∧ (stepMeshLine ⟨"", .points, [], [1]⟩ (.f [7, 8, 9])).idx_vtx = [1] ++ [7]) :=
  ⟨⟨rfl, (C6_mesh_directives ⟨"", .points, [], []⟩ [] 3 4 5 0 [5]).2.2.2.2.1 rfl⟩,
   ⟨by decide, (C6_mesh_directives ⟨"", .points, [], [1]⟩ [] 0 0 0 7 [8, 9]).2.2.2.2.2 (by decide)⟩⟩

/-- Invariant of the zoom walk under the default constants: the height
stays in `[500, 2000]`, remains a multiple of 5, and the direction is
always `1` or `-1`. -/
theorem zoomIter_inv (n : ℕ) :
    500 ≤ (zoomIter n).1 ∧ (zoomIter n).1 ≤ 2000 ∧ (5 : ℤ) ∣ (zoomIter n).1
    ∧ ((zoomIter n).2 = 1 ∨ (zoomIter n).2 = -1) := by
  induction n with
  | zero =>
    refine ⟨by norm_num [zoomIter], by norm_num [zoomIter], ?_, by simp [zoomIter]⟩
    simp only [zoomIter]
    omega
  | succ n ih =>
    obtain ⟨h1, h2, h3, h4⟩ := ih
    simp only [zoomIter, zoomStep]
    rcases h4 with h4 | h4 <;> rw [h4] <;> split_ifs <;> simp_all <;> omega

/-- C7: with the zoom input active, `Camera2D::update` moves the view
height by exactly `height_chg_val` in the current direction, the
direction being recomputed to flip exactly at the bounds (the pair
(height, direction) steps by `zoomStep`); under the configured
constants (bounds `[500, 2000]`, increment 5), stepping up from 1995
lands on 2000, the next step sets direction `-1` and decreases the
height to 1995, and iterating from the initial height 1000 the height
never leaves `[500, 2000]`. -/
theorem C7_zoom_pingpong :
    ∀ (cosd sind : ℚ → ℚ) (inp : Inputs) (fbw fbh dt : ℚ) (cam : Camera2D)
      (pgo : GLObject),
    inp.keystateZ = true → cam.min_height = 500 → cam.max_height = 2000 →
    cam.height_chg_val = 5 →
    (((Camera2D.update cosd sind inp fbw fbh dt cam pgo).1.height,
      (Camera2D.update cosd sind inp fbw fbh dt cam pgo).1.height_chg_dir)
        = zoomStep 500 2000 5 (cam.height, cam.height_chg_dir))
    ∧ zoomStep 500 2000 5 (1995, 1) = (2000, 1)
    ∧ (∀ d : ℤ, zoomStep 500 2000 5 (2000, d) = (1995, -1)
        ∧ (zoomStep 500 2000 5 (2000, d)).1 < 2000)
    ∧ (∀ n : ℕ, 500 ≤ (zoomIter n).1 ∧ (zoomIter n).1 ≤ 2000) := by
  intro cosd sind inp fbw fbh dt cam pgo hz h1 h2 h3
  refine ⟨?_, by decide, ?_, ?_⟩
  · simp only [Camera2D.update, hz, h1, h2, h3, if_true]
  · intro d
    constructor <;> norm_num [zoomStep]
  · intro n
    exact ⟨(zoomIter_inv n).1, (zoomIter_inv n).2.1⟩

/-- C7 witness: the zoom clause applied at the concrete camera `camW`
(default constants) with the zoom key held. -/
theorem C7_zoom_pingpong_witness :
    inpW.keystateZ = true ∧ camW.min_height = 500 ∧ camW.max_height = 2000
    ∧ camW.height_chg_val = 5
    ∧ ((((Camera2D.update (fun q => q) (fun q => q) inpW 1 1 1 camW {}).1.height,
        (Camera2D.update (fun q => q) (fun q => q) inpW 1 1 1 camW {}).1.height_chg_dir)
          = zoomStep 500 2000 5 (camW.height, camW.height_chg_dir))
      ∧ zoomStep 500 2000 5 (1995, 1) = (2000, 1)
      ∧ (∀ d : ℤ, zoomStep 500 2000 5 (2000, d) = (1995, -1)
          ∧ (zoomStep 500 2000 5 (2000, d)).1 < 2000)
      ∧ (∀ n : ℕ, 500 ≤ (zoomIter n).1 ∧ (zoomIter n).1 ≤ 2000)) :=
  ⟨rfl, rfl, rfl, rfl,
   C7_zoom_pingpong (fun q => q) (fun q => q) inpW 1 1 1 camW {} rfl rfl rfl rfl⟩

/-- C8: on every `Camera2D::update`, the smoothed camera position is
recomputed as `(1 - delta_time) * cam_pos + delta_time * pgo->position`
(with `pgo->position` the bound entity's position as of this frame,
i.e. the position also returned by the call), and the per-frame
interpolation factor stored is `delta_time` itself. -/
theorem C8_camera_follow_interpolation :
    ∀ (cosd sind : ℚ → ℚ) (inp : Inputs) (fbw fbh dt : ℚ) (cam : Camera2D)
      (pgo : GLObject),
    ((Camera2D.update cosd sind inp fbw fbh dt cam pgo).1.cam_pos
      = (Vec2.smul (1 - dt) cam.cam_pos).add
          (Vec2.smul dt ((Camera2D.update cosd sind inp fbw fbh dt cam pgo).2.position)))
    ∧ (Camera2D.update cosd sind inp fbw fbh dt cam pgo).1.interpolation = dt := by
  intro cosd sind inp fbw fbh dt cam pgo
  constructor
  · simp only [Camera2D.update, GLObject.update_position_eq]
  · simp only [Camera2D.update]

/-- C9: the camera entity's orientation is the only one wrapped.  In
`Camera2D::update`, for non-negative angular speed and `delta_time`,
an angle strictly inside `(-360, 360)` stays strictly inside
`(-360, 360)` after the update (a left turn reaching `>= 360`, or a
right turn reaching `<= -360`, is reset to 0); and `GLObject::update`
applies no clamp or wrap to a non-camera entity: its angle is exactly
the old angle plus `angular_speed * delta_time`. -/
theorem C9_camera_orientation_wrap :
    ∀ (cosd sind : ℚ → ℚ) (inp : Inputs) (fbw fbh dt : ℚ) (cam : Camera2D)
      (pgo : GLObject),
    0 ≤ dt → 0 ≤ pgo.orientation.y →
    -360 < pgo.orientation.x → pgo.orientation.x < 360 →
    (-360 < (Camera2D.update cosd sind inp fbw fbh dt cam pgo).2.orientation.x
     ∧ (Camera2D.update cosd sind inp fbw fbh dt cam pgo).2.orientation.x < 360)
    ∧ (∀ (w wm : Mat3) (o : GLObject),
        (GLObject.update cosd sind false w wm dt o).orientation.x
          = o.orientation.x + o.orientation.y * dt) := by
  intro cosd sind inp fbw fbh dt cam pgo hdt hy hlo hhi
  constructor
  · obtain ⟨v, z, hf, kf, u⟩ := inp
    have hd : 0 ≤ pgo.orientation.y * dt * 150 := by
      have := mul_nonneg (mul_nonneg hy hdt) (by norm_num : (0:ℚ) ≤ 150)
      linarith
    cases hf <;> cases kf <;>
      simp only [Camera2D.update, GLObject.update, Bool.false_or, Bool.or_false,
        Bool.true_or, Bool.or_true, if_true, if_false, Bool.false_eq_true,
        ite_true, ite_false] <;>
      split_ifs <;> simp_all <;> first
        | (constructor <;> linarith)
        | linarith
  · intro w wm o
    simp [GLObject.update]

/-- C9 witness: a camera entity at angle 359 with angular speed 1,
`delta_time = 1`, all keys held: the left turn overshoots 360 and the
angle is wrapped back into range. -/
theorem C9_camera_orientation_wrap_witness :
    (0 : ℚ) ≤ 1
    ∧ (0 : ℚ) ≤ ({ orientation := ⟨359, 1⟩ } : GLObject).orientation.y
    ∧ (-360 : ℚ) < ({ orientation := ⟨359, 1⟩ } : GLObject).orientation.x
    ∧ ({ orientation := ⟨359, 1⟩ } : GLObject).orientation.x < 360
    ∧ ((-360 < (Camera2D.update (fun q => q) (fun q => q) inpW 1 1 1 camW
          { orientation := ⟨359, 1⟩ }).2.orientation.x
        ∧ (Camera2D.update (fun q => q) (fun q => q) inpW 1 1 1 camW
            { orientation := ⟨359, 1⟩ }).2.orientation.x < 360)
      ∧ (∀ (w wm : Mat3) (o : GLObject),
          (GLObject.update (fun q => q) (fun q => q) false w wm 1 o).orientation.x
            = o.orientation.x + o.orientation.y * 1)) :=
  ⟨by norm_num, by norm_num, by norm_num, by norm_num,
   C9_camera_orientation_wrap (fun q => q) (fun q => q) inpW 1 1 1 camW
     { orientation := ⟨359, 1⟩ } (by norm_num) (by norm_num) (by norm_num) (by norm_num)⟩

/-- Lookup after insert-or-replace: the inserted key now maps to the
new value; other keys are unaffected. -/
theorem lookupA_insertA {α : Type} (k k1 : String) (v : α) (l : List (String × α)) :
    lookupA k (insertA k1 v l) = if k1 = k then some v else lookupA k l := by
  induction l with
  | nil => simp [insertA, lookupA]
  | cons p t ih =>
    obtain ⟨k2, v2⟩ := p
    simp only [insertA]
    by_cases h12 : k2 = k1
    · subst h12
      by_cases hk : k2 = k <;> simp [hk, lookupA]
    · by_cases hk : k2 = k
      · subst hk
        have hk1s : ¬ (k1 = k2) := fun h => h12 h.symm
        simp [h12, hk1s, lookupA]
      · simp [h12, hk, lookupA, ih]

/-- Key membership after insert-or-replace. -/
theorem containsA_insertA {α : Type} (k k1 : String) (v : α) (l : List (String × α)) :
    containsA k (insertA k1 v l) = true ↔ (k1 = k ∨ containsA k l = true) := by
  simp only [containsA, lookupA_insertA]
  by_cases h : k1 = k <;> simp [h]

/-- Insert-or-replace grows the registry only when the key is new. -/
theorem length_insertA {α : Type} (k : String) (v : α) (l : List (String × α)) :
    (insertA k v l).length
      = if containsA k l then l.length else l.length + 1 := by
  induction l with
  | nil => simp [insertA, containsA, lookupA]
  | cons p t ih =>
    obtain ⟨k2, v2⟩ := p
    simp only [insertA]
    by_cases h : k2 = k
    · simp [h, containsA, lookupA]
    · simp only [containsA, lookupA, h, if_neg]
      by_cases hc : (lookupA k t).isSome <;> simp_all [containsA]

/-- The loop body's effect on the objects registry: insert-or-replace
at the record's instance name. -/
theorem processRecord_objects (env : String → List MeshLine) (st : SceneState)
    (r : SceneRecord) :
    (processRecord env st r).objects
      = insertA r.object_name (objOfRecord r) st.objects := by
  simp only [processRecord]
  split <;> split <;> rfl

/-- The loop body's effect on the models registry: untouched when the
record's model name is already a key, otherwise the mesh file's model
is inserted under the name parsed from that file. -/
theorem processRecord_models (env : String → List MeshLine) (st : SceneState)
    (r : SceneRecord) :
    (processRecord env st r).models
      = if containsA r.model_name st.models then st.models
        else insertA (init_models_cont (env r.model_name)).2
               (init_models_cont (env r.model_name)).1 st.models := by
  simp only [processRecord]
  split <;> split <;> simp_all

/-- The loop body's effect on the shader registry. -/
theorem processRecord_shdrpgms (env : String → List MeshLine) (st : SceneState)
    (r : SceneRecord) :
    (processRecord env st r).shdrpgms
      = if containsA r.shdr_pgm_name st.shdrpgms then st.shdrpgms
        else insertA r.shdr_pgm_name
               ⟨r.vtx_shdr_filename, r.frg_shdr_filename⟩ st.shdrpgms := by
  simp only [processRecord]
  split <;> split <;> simp_all

/-- The loop body's effect on the mesh-load log. -/
theorem processRecord_modelLoads (env : String → List MeshLine) (st : SceneState)
    (r : SceneRecord) :
    (processRecord env st r).modelLoads
      = st.modelLoads ++
          (if containsA r.model_name st.models then [] else [r.model_name]) := by
  simp only [processRecord]
  split <;> split <;> simp_all

/-- The loop body's effect on the shader-compile log. -/
theorem processRecord_shaderLoads (env : String → List MeshLine) (st : SceneState)
    (r : SceneRecord) :
    (processRecord env st r).shaderLoads
      = st.shaderLoads ++
          (if containsA r.shdr_pgm_name st.shdrpgms then [] else [r.shdr_pgm_name]) := by
  simp only [processRecord]
  split <;> split <;> simp_all

/-- Last-write-wins over a fold of the loop body: after processing
`rs`, an instance name maps to the object of the last record bearing
it, or to whatever the starting registry held. -/
theorem foldl_objects_lookup (env : String → List MeshLine)
    (rs : List SceneRecord) (st : SceneState) (n : String) :
    lookupA n (rs.foldl (processRecord env) st).objects
      = match (rs.filter (fun r => r.object_name == n)).getLast? with
        | some r => some (objOfRecord r)
        | none => lookupA n st.objects := by
  induction rs using List.reverseRecOn with
  | nil => simp
  | append_singleton rs r ih =>
    rw [List.foldl_append]
    simp only [List.foldl_cons, List.foldl_nil]
    rw [processRecord_objects, lookupA_insertA]
    by_cases h : r.object_name = n
    · simp [List.filter_append, h]
    · have hb : (r.object_name == n) = false := by simp [h]
      simp [List.filter_append, hb, h, ih]

/-- The loop body never removes a models-registry key. -/
theorem containsA_mono_models (env : String → List MeshLine) (st : SceneState)
    (r : SceneRecord) (n : String) (h : containsA n st.models = true) :
    containsA n (processRecord env st r).models = true := by
  rw [processRecord_models]
  split
  · exact h
  · exact (containsA_insertA n _ _ _).2 (Or.inr h)

/-- The loop body never removes a shader-registry key. -/
theorem containsA_mono_shdr (env : String → List MeshLine) (st : SceneState)
    (r : SceneRecord) (n : String) (h : containsA n st.shdrpgms = true) :
    containsA n (processRecord env st r).shdrpgms = true := by
  rw [processRecord_shdrpgms]
  split
  · exact h
  · exact (containsA_insertA n _ _ _).2 (Or.inr h)

/-- Invariant of `init_scene` on the models registry, given that every
referenced mesh file registers itself under its own name: each name is
logged as loaded exactly once iff it is a registry key, a present key
maps to the model parsed from its mesh file, and every processed
record's model name is a key. -/
theorem scene_models_inv (env : String → List MeshLine) (rs : List SceneRecord)
    (Hmesh : ∀ r ∈ rs, (init_models_cont (env r.model_name)).2 = r.model_name) :
    (∀ n, (init_scene env rs).modelLoads.count n
        = (if containsA n (init_scene env rs).models then 1 else 0))
    ∧ (∀ n, containsA n (init_scene env rs).models = true →
        lookupA n (init_scene env rs).models = some (init_models_cont (env n)).1)
    ∧ (∀ r ∈ rs, containsA r.model_name (init_scene env rs).models = true) := by
  induction rs using List.reverseRecOn with
  | nil =>
    refine ⟨?_, ?_, ?_⟩ <;> simp [init_scene, initSceneState, containsA, lookupA]
  | append_singleton rs r ih =>
    have Hrs : ∀ r' ∈ rs, (init_models_cont (env r'.model_name)).2 = r'.model_name :=
      fun r' hr' => Hmesh r' (List.mem_append_left _ hr')
    have Hr : (init_models_cont (env r.model_name)).2 = r.model_name :=
      Hmesh r (List.mem_append_right _ (List.mem_singleton_self r))
    obtain ⟨ih1, ih2, ih3⟩ := ih Hrs
    have hstep : init_scene env (rs ++ [r])
        = processRecord env (init_scene env rs) r := by
      simp [init_scene, List.foldl_append]
    rw [hstep]
    by_cases hc : containsA r.model_name (init_scene env rs).models = true
    · refine ⟨?_, ?_, ?_⟩
      · intro n
        rw [processRecord_models, processRecord_modelLoads, if_pos hc, if_pos hc]
        simp [ih1 n]
      · intro n hn
        rw [processRecord_models, if_pos hc] at hn ⊢
        exact ih2 n hn
      · intro r' hr'
        rcases List.mem_append.1 hr' with h | h
        · exact containsA_mono_models env _ r _ (ih3 r' h)
        · rw [List.mem_singleton] at h
          subst h
          rw [processRecord_models, if_pos hc]
          exact hc
    · refine ⟨?_, ?_, ?_⟩
      · intro n
        rw [processRecord_models, processRecord_modelLoads, if_neg hc, if_neg hc, Hr,
          List.count_append]
        have hins := containsA_insertA n r.model_name
          (init_models_cont (env r.model_name)).1 (init_scene env rs).models
        by_cases hn : r.model_name = n
        · have h0 : (init_scene env rs).modelLoads.count n = 0 := by
            rw [ih1 n, if_neg (hn ▸ hc)]
          rw [h0, if_pos (hins.2 (Or.inl hn))]
          simp [hn]
        · have h1 : List.count n [r.model_name] = 0 := by
            rw [List.count_eq_zero, List.mem_singleton]
            exact fun h => hn h.symm
          rw [h1, Nat.add_zero, ih1 n]
          by_cases h2 : containsA n (init_scene env rs).models = true
          · rw [if_pos h2, if_pos (hins.2 (Or.inr h2))]
          · rw [if_neg h2, if_neg (fun hT => (hins.1 hT).elim hn h2)]
      · intro n hn2
        rw [processRecord_models, if_neg hc, Hr] at hn2 ⊢
        rw [lookupA_insertA]
        by_cases hn : r.model_name = n
        · rw [if_pos hn, hn]
        · rw [if_neg hn]
          rcases (containsA_insertA n _ _ _).1 hn2 with h | h
          · exact absurd h hn
          · exact ih2 n h
      · intro r' hr'
        rcases List.mem_append.1 hr' with h | h
        · exact containsA_mono_models env _ r _ (ih3 r' h)
        · rw [List.mem_singleton] at h
          subst h
          rw [processRecord_models, if_neg hc, Hr]
          exact (containsA_insertA _ _ _ _).2 (Or.inl rfl)

/-- Invariant of `init_scene` on the shader registry: each name is
logged as compiled exactly once iff it is a registry key, and every
processed record's shader-program name is a key. -/
theorem scene_shaders_inv (env : String → List MeshLine) (rs : List SceneRecord) :
    (∀ n, (init_scene env rs).shaderLoads.count n
        = (if containsA n (init_scene env rs).shdrpgms then 1 else 0))
    ∧ (∀ r ∈ rs, containsA r.shdr_pgm_name (init_scene env rs).shdrpgms = true) := by
  induction rs using List.reverseRecOn with
  | nil =>
    refine ⟨?_, ?_⟩ <;> simp [init_scene, initSceneState, containsA, lookupA]
  | append_singleton rs r ih =>
    obtain ⟨ih1, ih2⟩ := ih
    have hstep : init_scene env (rs ++ [r])
        = processRecord env (init_scene env rs) r := by
      simp [init_scene, List.foldl_append]
    rw [hstep]
    by_cases hc : containsA r.shdr_pgm_name (init_scene env rs).shdrpgms = true
    · refine ⟨?_, ?_⟩
      · intro n
        rw [processRecord_shdrpgms, processRecord_shaderLoads, if_pos hc, if_pos hc]
        simp [ih1 n]
      · intro r' hr'
        rcases List.mem_append.1 hr' with h | h
        · exact containsA_mono_shdr env _ r _ (ih2 r' h)
        · rw [List.mem_singleton] at h
          subst h
          rw [processRecord_shdrpgms, if_pos hc]
          exact hc
    · refine ⟨?_, ?_⟩
      · intro n
        rw [processRecord_shdrpgms, processRecord_shaderLoads, if_neg hc, if_neg hc,
          List.count_append]
        have hins := containsA_insertA n r.shdr_pgm_name
          (⟨r.vtx_shdr_filename, r.frg_shdr_filename⟩ : GLSLShader)
          (init_scene env rs).shdrpgms
        by_cases hn : r.shdr_pgm_name = n
        · have h0 : (init_scene env rs).shaderLoads.count n = 0 := by
            rw [ih1 n, if_neg (hn ▸ hc)]
          rw [h0, if_pos (hins.2 (Or.inl hn))]
          simp [hn]
        · have h1 : List.count n [r.shdr_pgm_name] = 0 := by
            rw [List.count_eq_zero, List.mem_singleton]
            exact fun h => hn h.symm
          rw [h1, Nat.add_zero, ih1 n]
          by_cases h2 : containsA n (init_scene env rs).shdrpgms = true
          · rw [if_pos h2, if_pos (hins.2 (Or.inr h2))]
          · rw [if_neg h2, if_neg (fun hT => (hins.1 hT).elim hn h2)]
      · intro r' hr'
        rcases List.mem_append.1 hr' with h | h
        · exact containsA_mono_shdr env _ r _ (ih2 r' h)
        · rw [List.mem_singleton] at h
          subst h
          rw [processRecord_shdrpgms, if_neg hc]
          exact (containsA_insertA _ _ _ _).2 (Or.inl rfl)

/-- An existing models-registry entry survives one loop iteration
unchanged (the record's mesh is only loaded when its name is absent). -/
theorem processRecord_models_stable (env : String → List MeshLine) (st : SceneState)
    (r : SceneRecord) (n : String) (v : GLModel)
    (Hr : (init_models_cont (env r.model_name)).2 = r.model_name)
    (h : lookupA n st.models = some v) :
    lookupA n (processRecord env st r).models = some v := by
  rw [processRecord_models]
  split
  · exact h
  · rw [Hr, lookupA_insertA]
    split
    · rename_i heq
      exfalso
      rename_i hnc
      apply hnc
      rw [heq] at *
      simp [containsA, h]
    · exact h

/-- An existing shader-registry entry survives one loop iteration
unchanged. -/
theorem processRecord_shdr_stable (env : String → List MeshLine) (st : SceneState)
    (r : SceneRecord) (n : String) (v : GLSLShader)
    (h : lookupA n st.shdrpgms = some v) :
    lookupA n (processRecord env st r).shdrpgms = some v := by
  rw [processRecord_shdrpgms]
  split
  · exact h
  · rw [lookupA_insertA]
    split
    · rename_i heq
      exfalso
      rename_i hnc
      apply hnc
      rw [heq] at *
      simp [containsA, h]
    · exact h

/-- Every key of the objects registry is the instance name of some
processed record. -/
theorem scene_objects_keys (env : String → List MeshLine) (rs : List SceneRecord)
    (n : String) (h : containsA n (init_scene env rs).objects = true) :
    n ∈ rs.map (fun r => r.object_name) := by
  induction rs using List.reverseRecOn with
  | nil => simp [init_scene, initSceneState, containsA, lookupA] at h
  | append_singleton rs r ih =>
    have hstep : init_scene env (rs ++ [r])
        = processRecord env (init_scene env rs) r := by
      simp [init_scene, List.foldl_append]
    rw [hstep, processRecord_objects] at h
    rcases (containsA_insertA n _ _ _).1 h with h1 | h1
    · rw [List.map_append]
      apply List.mem_append_right
      simp [h1]
    · rw [List.map_append]
      exact List.mem_append_left _ (ih h1)

/-- With pairwise-distinct instance names, the objects registry has one
entry per record. -/
theorem scene_objects_length (env : String → List MeshLine) (rs : List SceneRecord)
    (h : (rs.map (fun r => r.object_name)).Nodup) :
    (init_scene env rs).objects.length = rs.length := by
  induction rs using List.reverseRecOn with
  | nil => simp [init_scene, initSceneState]
  | append_singleton rs r ih =>
    rw [List.map_append, List.nodup_append] at h
    obtain ⟨h1, _, h3⟩ := h
    have hnm : r.object_name ∉ rs.map (fun r => r.object_name) := by
      intro hmem
      exact h3 hmem (by simp)
    have hstep : init_scene env (rs ++ [r])
        = processRecord env (init_scene env rs) r := by
      simp [init_scene, List.foldl_append]
    rw [hstep, processRecord_objects, length_insertA]
    have hnc : containsA r.object_name (init_scene env rs).objects ≠ true :=
      fun hT => hnm (scene_objects_keys env rs _ hT)
    rw [if_neg hnc, ih h1]
    simp

/-- The last element of a list is a member of it. -/
theorem getLast?_mem_of_eq {α : Type} {l : List α} {a : α}
    (h : l.getLast? = some a) : a ∈ l := by
  have hm : a ∈ l.getLast? := Option.mem_def.mpr h
  obtain ⟨hne, heq⟩ := List.mem_getLast?_eq_getLast hm
  rw [heq]
  exact List.getLast_mem hne

/-- C5: when two records carry the same instance name, `init_scene`
silently overwrites the earlier entity with the later one: after
parsing, the objects registry maps each name to the object of the last
record bearing it (and to nothing if no record bears it), and the
records are processed by folding the loop body over the file in order
(`init_scene` of a concatenation is the fold of the suffix from the
state after the prefix).  The embedded loop body is a total function:
no error or warning path exists. -/
theorem C5_duplicate_names_last_write_wins :
    ∀ (env : String → List MeshLine) (records : List SceneRecord) (n : String),
    (lookupA n (init_scene env records).objects
      = match (records.filter (fun r => r.object_name == n)).getLast? with
        | some r => some (objOfRecord r)
        | none => none)
    ∧ (∀ rs1 rs2 : List SceneRecord,
        init_scene env (rs1 ++ rs2)
          = rs2.foldl (processRecord env) (init_scene env rs1)) := by
  intro env records n
  constructor
  · have hL := foldl_objects_lookup env records initSceneState n
    rw [init_scene, hL]
    cases hg : (records.filter (fun r => r.object_name == n)).getLast? <;>
      simp [initSceneState, lookupA]
  · intro rs1 rs2
    simp [init_scene, List.foldl_append]

/-- C3 (amended): for a scene of `N` well-formed records, `init_scene`
leaves the objects registry with one entry per distinct instance name —
exactly `N` entries when the `N` instance names are pairwise distinct —
and, regardless of distinctness, every entry's `mdl_ref` and `shd_ref`
resolve to live entries of the models and shader registries.  The
`Nodup` condition scopes only over the entry-count conjunct; the
resolution conjunct is unconditional in it.  As in the memoization
development, the theorem assumes the external mesh files each register
themselves under their own file-stem name (the well-formedness of the
repo's mesh assets, disclosed and not part of the amendment). -/
theorem C3_entity_count_and_resolution :
    ∀ (env : String → List MeshLine) (records : List SceneRecord),
    (∀ r ∈ records, (init_models_cont (env r.model_name)).2 = r.model_name) →
    (((records.map (fun r => r.object_name)).Nodup →
        (init_scene env records).objects.length = records.length)
    ∧ (∀ k o, lookupA k (init_scene env records).objects = some o →
        containsA o.mdl_ref (init_scene env records).models = true
        ∧ containsA o.shd_ref (init_scene env records).shdrpgms = true)) := by
  intro env records Hmesh
  constructor
  · intro Hnodup
    exact scene_objects_length env records Hnodup
  · intro k o hlk
    have hL := foldl_objects_lookup env records initSceneState k
    rw [init_scene] at hlk
    rw [hL] at hlk
    cases hg : (records.filter (fun r => r.object_name == k)).getLast? with
    | none =>
      rw [hg] at hlk
      simp [initSceneState, lookupA] at hlk
    | some r =>
      rw [hg] at hlk
      have hro : objOfRecord r = o := Option.some.inj hlk
      have hrmem : r ∈ records :=
        List.mem_of_mem_filter (getLast?_mem_of_eq hg)
      have hm : o.mdl_ref = r.model_name := by
        rw [← hro]; simp [objOfRecord]
      have hs : o.shd_ref = r.shdr_pgm_name := by
        rw [← hro]; simp [objOfRecord]
      rw [hm, hs]
      exact ⟨(scene_models_inv env records Hmesh).2.2 r hrmem,
             (scene_shaders_inv env records).2 r hrmem⟩


/-- An existing models-registry entry survives any further records
(given mesh-name consistency for those records). -/
theorem foldl_models_stable (env : String → List MeshLine) (rs : List SceneRecord)
    (st : SceneState) (n : String) (v : GLModel)
    (H : ∀ r ∈ rs, (init_models_cont (env r.model_name)).2 = r.model_name)
    (h : lookupA n st.models = some v) :
    lookupA n (rs.foldl (processRecord env) st).models = some v := by
  induction rs generalizing st with
  | nil => exact h
  | cons r t ih =>
    simp only [List.foldl_cons]
    exact ih _ (fun r' hr' => H r' (List.mem_cons_of_mem _ hr'))
      (processRecord_models_stable env st r n v (H r (List.mem_cons_self _ _)) h)

/-- An existing shader-registry entry survives any further records. -/
theorem foldl_shdr_stable (env : String → List MeshLine) (rs : List SceneRecord)
    (st : SceneState) (n : String) (v : GLSLShader)
    (h : lookupA n st.shdrpgms = some v) :
    lookupA n (rs.foldl (processRecord env) st).shdrpgms = some v := by
  induction rs generalizing st with
  | nil => exact h
  | cons r t ih =>
    simp only [List.foldl_cons]
    exact ih _ (processRecord_shdr_stable env st r n v h)

/-- C4: `init_scene` memoizes both registries — given that every
referenced mesh file registers itself under its own name,
`init_models_cont` is invoked at most once per name (and exactly once
per referenced model name), `init_shdrpgms` likewise, every referenced
model name resolves to the model created at its first reference, and
registry entries created earlier are never overwritten by later
records (so every later reference resolves to the entry created on
first reference). -/
theorem C4_registry_memoization :
    ∀ (env : String → List MeshLine) (records : List SceneRecord),
    (∀ r ∈ records, (init_models_cont (env r.model_name)).2 = r.model_name) →
    (∀ n, (init_scene env records).modelLoads.count n ≤ 1)
    ∧ (∀ n, (init_scene env records).shaderLoads.count n ≤ 1)
    ∧ (∀ r ∈ records, (init_scene env records).modelLoads.count r.model_name = 1
        ∧ (init_scene env records).shaderLoads.count r.shdr_pgm_name = 1)
    ∧ (∀ r ∈ records,
        lookupA r.model_name (init_scene env records).models
          = some (init_models_cont (env r.model_name)).1)
    ∧ (∀ rs2 : List SceneRecord,
        (∀ r ∈ rs2, (init_models_cont (env r.model_name)).2 = r.model_name) →
        ∀ n v, lookupA n (init_scene env records).models = some v →
          lookupA n (init_scene env (records ++ rs2)).models = some v)
    ∧ (∀ (rs2 : List SceneRecord) n v,
        lookupA n (init_scene env records).shdrpgms = some v →
          lookupA n (init_scene env (records ++ rs2)).shdrpgms = some v) := by
  intro env records Hmesh
  obtain ⟨m1, m2, m3⟩ := scene_models_inv env records Hmesh
  obtain ⟨s1, s2⟩ := scene_shaders_inv env records
  refine ⟨?_, ?_, ?_, ?_, ?_, ?_⟩
  · intro n
    rw [m1 n]
    split <;> omega
  · intro n
    rw [s1 n]
    split <;> omega
  · intro r hr
    constructor
    · rw [m1 _, if_pos (m3 r hr)]
    · rw [s1 _, if_pos (s2 r hr)]
  · intro r hr
    exact m2 r.model_name (m3 r hr)
  · intro rs2 H2 n v h
    have hsplit : init_scene env (records ++ rs2)
        = rs2.foldl (processRecord env) (init_scene env records) := by
      simp [init_scene, List.foldl_append]
    rw [hsplit]
    exact foldl_models_stable env rs2 _ n v H2 h
  · intro rs2 n v h
    have hsplit : init_scene env (records ++ rs2)
        = rs2.foldl (processRecord env) (init_scene env records) := by
      simp [init_scene, List.foldl_append]
    rw [hsplit]
    exact foldl_shdr_stable env rs2 _ n v h

/-- C3 counterexample: a scene file with `N = 2` well-formed records
that share the instance name `"Obj1"` (`recA`, `recB`) leaves the
objects registry with 1 entry, not 2 — the second record silently
overwrites the first. -/
theorem C3_entity_count_counterexample :
    (∀ r ∈ [recA, recB], (init_models_cont (envA r.model_name)).2 = r.model_name)
    ∧ (List.length [recA, recB] = 2)
    ∧ ((init_scene envA [recA, recB]).objects.length = 1)
    ∧ ((init_scene envA [recA, recB]).objects.length ≠ 2) := by
  refine ⟨by decide, rfl, by decide, by decide⟩

/-- C3 witness: the amended claim applied to the concrete duplicate-name
scene `[recA, recB]` under the mesh environment `envA` — the resolution
conjunct holds there even though the instance names are not distinct —
and the entry-count implication discharged on the distinct-name scene
`[recA, recC]`. -/
theorem C3_entity_count_and_resolution_witness :
    (∀ r ∈ [recA, recB], (init_models_cont (envA r.model_name)).2 = r.model_name)
    ∧ (((List.map (fun r => r.object_name) [recA, recB]).Nodup →
          (init_scene envA [recA, recB]).objects.length = List.length [recA, recB])
      ∧ (∀ k o, lookupA k (init_scene envA [recA, recB]).objects = some o →
          containsA o.mdl_ref (init_scene envA [recA, recB]).models = true
          ∧ containsA o.shd_ref (init_scene envA [recA, recB]).shdrpgms = true))
    ∧ ((List.map (fun r => r.object_name) [recA, recC]).Nodup)
    ∧ ((init_scene envA [recA, recC]).objects.length = List.length [recA, recC]) :=
  ⟨by decide,
   C3_entity_count_and_resolution envA [recA, recB] (by decide),
   by decide,
   (C3_entity_count_and_resolution envA [recA, recC] (by decide)).1 (by decide)⟩

/-- C4 witness: a scene whose two records (`recA`, `recC`) reference
the same model name loads that model exactly once, and its shader
exactly once. -/
theorem C4_registry_memoization_witness :
    (∀ r ∈ [recA, recC], (init_models_cont (envA r.model_name)).2 = r.model_name)
    ∧ recC.model_name = recA.model_name
    ∧ (init_scene envA [recA, recC]).modelLoads.count recA.model_name = 1
    ∧ (init_scene envA [recA, recC]).shaderLoads.count recA.shdr_pgm_name = 1 :=
  ⟨by decide, rfl,
   ((C4_registry_memoization envA [recA, recC] (by decide)).2.2.1 recA
      (List.mem_cons_self _ _)).1,
   ((C4_registry_memoization envA [recA, recC] (by decide)).2.2.1 recA
      (List.mem_cons_self _ _)).2⟩
